import Mathlib

/-!
Shallow embedding of the bookstore backend (src/backend/server.js) together
with the MySQL schema it relies on (src/database/init.sql).

The embedding models:
  - JSON values as produced by res.json / JSON.stringify, including the
    JavaScript object-spread used on cache hits and the fact that
    JSON.stringify drops object properties whose value is undefined;
  - the books table (id AUTO_INCREMENT, title/author/isbn NOT NULL,
    isbn UNIQUE, price/stock nullable with defaults, created_at/updated_at);
  - the Redis cache as a key/value map with the helper functions
    getFromCache / setToCache / invalidateCache from server.js, where the
    boolean flag `up` stands for "redisClient is open and the call does not
    throw" (the helpers swallow every cache error and behave as a miss or
    a no-op, so an erroring call and a closed client are behaviourally
    identical in server.js);
  - the five book route handlers and the startServer retry loop.

Request-body fields are `Option`-typed: `none` is JavaScript `undefined`
(an absent JSON field). JavaScript truthiness of a string (used by the
POST validation `!title || !author || !isbn`) is `truthyS`.
-/

namespace Bookstore

/-- JSON-like values as handled by res.json and the Redis cache
(JSON.stringify followed by JSON.parse is the identity on this fragment). -/
inductive JVal where
  | jnull : JVal
  | jbool : Bool → JVal
  | jnum : Int → JVal
  | jstr : String → JVal
  | jarr : List JVal → JVal
  | jobj : List (String × JVal) → JVal

/-- Whether a JSON value is an array. -/
def JVal.isArr : JVal → Bool
  | .jarr _ => true
  | _ => false

/-- First field with the given key of a JSON object, if any. -/
def JVal.objField : JVal → String → Option JVal
  | .jobj fs, k => (fs.find? (fun kv => kv.1 == k)).map (fun kv => kv.2)
  | _, _ => none

/-- Whether a JSON object has a field with the given key. -/
def JVal.hasKey (v : JVal) (k : String) : Bool :=
  (v.objField k).isSome

/-- Enumerate the elements of an array as numeric-string object fields,
as the JavaScript object spread does with an array operand. -/
def enumFields : Nat → List JVal → List (String × JVal)
  | _, [] => []
  | i, v :: vs => (toString i, v) :: enumFields (i + 1) vs

/-- JavaScript object-spread into an object literal with extra fields:
the expression \x7b ...v, extra \x7d. Spreading an object keeps its fields;
spreading an ARRAY produces a plain object whose keys are the numeric
indices as strings — the result is never an array. -/
def spreadWith (v : JVal) (extra : List (String × JVal)) : JVal :=
  match v with
  | .jobj fs => .jobj (fs ++ extra)
  | .jarr xs => .jobj (enumFields 0 xs ++ extra)
  | _ => .jobj extra

/-- Object field present only when the value is defined: JSON.stringify
drops properties whose value is undefined. -/
def optField (k : String) (v : Option JVal) : List (String × JVal) :=
  match v with
  | none => []
  | some x => [(k, x)]

/-- Error body as produced by res.status(...).json(\x7b error: msg \x7d). -/
def errBody (msg : String) : JVal :=
  .jobj [("error", .jstr msg)]

/-- Natural number as a JSON number. -/
def jnat (n : Nat) : JVal :=
  .jnum (Int.ofNat n)

/-- A row of the books table (src/database/init.sql): price and stock are
nullable columns (no NOT NULL), title/author/isbn are NOT NULL, isbn is
UNIQUE, id is AUTO_INCREMENT. -/
structure Book where
  id : Nat
  title : String
  author : String
  isbn : String
  price : Option Int
  stock : Option Int
  created_at : Nat
  updated_at : Nat
deriving DecidableEq, Repr

/-- The books table: rows in table (insertion) order plus the next
AUTO_INCREMENT value. -/
structure Store where
  rows : List Book
  nextId : Nat
deriving DecidableEq, Repr

/-- A parsed JSON request body for POST and PUT: each field may be absent
(undefined). -/
structure BookReq where
  title : Option String
  author : Option String
  isbn : Option String
  price : Option Int
  stock : Option Int
deriving DecidableEq, Repr

/-- JavaScript truthiness of a possibly-absent string: undefined and the
empty string are falsy. -/
def truthyS : Option String → Bool
  | none => false
  | some s => !s.isEmpty

/-- Insert a book into a list sorted by created_at descending, keeping the
relative order of rows with equal created_at (stable: the inserted row,
which precedes the tail in table order, goes before rows it ties with). -/
def insertDesc (b : Book) : List Book → List Book
  | [] => [b]
  | x :: xs => if b.created_at < x.created_at then x :: insertDesc b xs else b :: x :: xs

/-- Model of SELECT * FROM books ORDER BY created_at DESC: a stable sort of
the table rows by created_at descending. The query orders by created_at
only; the relative order of rows with equal created_at is not specified by
SQL, modelled here as table order. -/
def selectAll (s : Store) : List Book :=
  s.rows.foldr insertDesc []

/-- Model of SELECT * FROM books WHERE id = ?. -/
def selectById (s : Store) (id : Nat) : Option Book :=
  s.rows.find? (fun b => b.id == id)

/-- Whether some row already carries this ISBN (UNIQUE index idx_isbn). -/
def isbnTaken (s : Store) (isbn : String) : Bool :=
  s.rows.any (fun b => b.isbn == isbn)

/-- MySQL errors the handlers can observe: ER_DUP_ENTRY from the UNIQUE
isbn index, and the strict-mode error for writing NULL into a NOT NULL
column (a missing request field is bound as NULL by the driver). -/
inductive DbErr where
  | dupEntry : DbErr
  | badNull : DbErr
deriving DecidableEq, Repr

/-- Model of INSERT INTO books (title, author, isbn, price, stock)
VALUES (?, ?, ?, ?, ?): fails with ER_DUP_ENTRY when the ISBN exists,
otherwise appends the row with the next AUTO_INCREMENT id and
created_at = updated_at = now, returning the new store and insertId. -/
def insertBook (s : Store) (title author isbn : String) (price stock : Int)
    (now : Nat) : Except DbErr (Store × Nat) :=
  if isbnTaken s isbn then
    .error .dupEntry
  else
    let b : Book :=
      { id := s.nextId, title := title, author := author, isbn := isbn,
        price := some price, stock := some stock,
        created_at := now, updated_at := now }
    .ok ({ rows := s.rows ++ [b], nextId := s.nextId + 1 }, s.nextId)

/-- Model of UPDATE books SET title = ?, author = ?, isbn = ?, price = ?,
stock = ?, updated_at = NOW() WHERE id = ?. An absent body field is bound
as NULL: for the NOT NULL columns title/author/isbn this raises the
strict-mode null error once a row matches; price and stock are nullable
and simply become NULL. A new ISBN colliding with another row raises
ER_DUP_ENTRY. When no row matches, nothing is checked and affectedRows
is 0. Returns the new store and affectedRows. -/
def updateBook (s : Store) (id : Nat) (title author isbn : Option String)
    (price stock : Option Int) (now : Nat) : Except DbErr (Store × Nat) :=
  match s.rows.find? (fun b => b.id == id) with
  | none => .ok (s, 0)
  | some old =>
    match title, author, isbn with
    | some t, some a, some i =>
      if s.rows.any (fun b => b.isbn == i && b.id != id) then
        .error .dupEntry
      else
        let upd : Book :=
          { old with
            title := t, author := a, isbn := i,
            price := price, stock := stock, updated_at := now }
        .ok ({ rows := s.rows.map (fun b => if b.id == id then upd else b),
               nextId := s.nextId }, 1)
    | _, _, _ => .error .badNull

/-- Model of DELETE FROM books WHERE id = ?: returns the new store and
affectedRows. -/
def deleteRow (s : Store) (id : Nat) : Store × Nat :=
  if s.rows.any (fun b => b.id == id) then
    ({ rows := s.rows.filter (fun b => b.id != id), nextId := s.nextId }, 1)
  else
    (s, 0)

/-- The Redis cache contents: an association list from keys to the parsed
JSON values they hold. -/
abbrev Cache := List (String × JVal)

/-- Raw cache lookup (redisClient.get plus JSON.parse). -/
def cacheGet (c : Cache) (k : String) : Option JVal :=
  (c.find? (fun kv => kv.1 == k)).map (fun kv => kv.2)

/-- Raw cache write (redisClient.setEx; the TTL only bounds staleness and
plays no role in the sequential claims, so it is not tracked). -/
def cacheSet (c : Cache) (k : String) (v : JVal) : Cache :=
  (k, v) :: c.filter (fun kv => kv.1 != k)

/-- Raw cache delete (redisClient.del on one key). -/
def cacheDel (c : Cache) (k : String) : Cache :=
  c.filter (fun kv => kv.1 != k)

/-- getFromCache from server.js: when the client is closed or the call
errors (the error is logged and swallowed), the result is null — a miss. -/
def getFromCache (up : Bool) (c : Cache) (k : String) : Option JVal :=
  if up then cacheGet c k else none

/-- setToCache from server.js: a closed client or a swallowed error leaves
the cache unchanged. -/
def setToCache (up : Bool) (c : Cache) (k : String) (v : JVal) : Cache :=
  if up then cacheSet c k v else c

/-- invalidateCache from server.js: delete every key matching the pattern
books:* (modelled as the prefix books:), then delete books:all a second
time defensively. A closed client or a swallowed error leaves the cache
unchanged. -/
def invalidateCache (up : Bool) (c : Cache) : Cache :=
  if up then cacheDel (c.filter (fun kv => !(kv.1.startsWith "books:"))) "books:all" else c

/-- Cache key of a single book. -/
def itemKey (id : Nat) : String :=
  "books:" ++ toString id

/-- An HTTP response: status code and JSON body. -/
structure Response where
  status : Nat
  body : JVal

/-- Serialization of a table row as SELECT returns it to res.json. -/
def bookToJson (b : Book) : JVal :=
  .jobj [("id", jnat b.id), ("title", .jstr b.title), ("author", .jstr b.author),
         ("isbn", .jstr b.isbn),
         ("price", match b.price with | none => .jnull | some p => .jnum p),
         ("stock", match b.stock with | none => .jnull | some n => .jnum n),
         ("created_at", jnat b.created_at), ("updated_at", jnat b.updated_at)]

/-- Body of the 201 response of POST /api/books: the insertId plus the raw
request fields; fields that are undefined in the request are dropped by
JSON.stringify. -/
def createRespBody (newId : Nat) (req : BookReq) : JVal :=
  .jobj ([("id", jnat newId)]
    ++ optField "title" (req.title.map .jstr)
    ++ optField "author" (req.author.map .jstr)
    ++ optField "isbn" (req.isbn.map .jstr)
    ++ optField "price" (req.price.map .jnum)
    ++ optField "stock" (req.stock.map .jnum)
    ++ [("message", .jstr "Book created successfully")])

/-- Body of the 200 response of PUT /api/books/:id, built the same way
from the raw request fields. -/
def putRespBody (id : Nat) (req : BookReq) : JVal :=
  .jobj ([("id", jnat id)]
    ++ optField "title" (req.title.map .jstr)
    ++ optField "author" (req.author.map .jstr)
    ++ optField "isbn" (req.isbn.map .jstr)
    ++ optField "price" (req.price.map .jnum)
    ++ optField "stock" (req.stock.map .jnum)
    ++ [("message", .jstr "Book updated successfully")])

/-- Handler of GET /api/books: try the collection key; on a hit return the
cached value spread into an object with fromCache: true; on a miss scan
the store in created_at-descending order, populate the collection key and
return the array. -/
def getAllBooks (up : Bool) (c : Cache) (s : Store) : Response × Cache :=
  match getFromCache up c "books:all" with
  | some cached =>
    ({ status := 200, body := spreadWith cached [("fromCache", .jbool true)] }, c)
  | none =>
    let rows := (selectAll s).map bookToJson
    ({ status := 200, body := .jarr rows }, setToCache up c "books:all" (.jarr rows))

/-- Handler of GET /api/books/:id: try the item key; on a hit return the
cached record with fromCache: true; on a miss do the point lookup, answer
404 when absent (without touching the cache), otherwise populate the item
key and return the record. -/
def getOneBook (up : Bool) (c : Cache) (s : Store) (id : Nat) : Response × Cache :=
  match getFromCache up c (itemKey id) with
  | some cached =>
    ({ status := 200, body := spreadWith cached [("fromCache", .jbool true)] }, c)
  | none =>
    match selectById s id with
    | none => ({ status := 404, body := errBody "Book not found" }, c)
    | some b =>
      ({ status := 200, body := bookToJson b }, setToCache up c (itemKey id) (bookToJson b))

/-- Handler of POST /api/books: validate truthiness of title, author and
isbn (400), insert with price and stock defaulted through the JavaScript
expression price or-else 0 (ER_DUP_ENTRY becomes 409), invalidate the
cache only after a successful insert, and answer 201 with the insertId and
the raw request fields. -/
def postBook (up : Bool) (c : Cache) (s : Store) (req : BookReq) (now : Nat) :
    Response × Cache × Store :=
  if !(truthyS req.title && truthyS req.author && truthyS req.isbn) then
    ({ status := 400, body := errBody "Title, author, and ISBN are required" }, c, s)
  else
    match insertBook s (req.title.getD "") (req.author.getD "") (req.isbn.getD "")
        (req.price.getD 0) (req.stock.getD 0) now with
    | .error _ =>
      ({ status := 409, body := errBody "Book with this ISBN already exists" }, c, s)
    | .ok (s', newId) =>
      ({ status := 201, body := createRespBody newId req }, invalidateCache up c, s')

/-- Handler of PUT /api/books/:id: no validation; the UPDATE statement is
issued directly, so any store error (including a NULL bind for a missing
field or a duplicate ISBN) is caught by the generic handler and becomes
500; affectedRows = 0 becomes 404; on success the cache is invalidated and
the raw request fields are echoed with 200. -/
def putBook (up : Bool) (c : Cache) (s : Store) (id : Nat) (req : BookReq) (now : Nat) :
    Response × Cache × Store :=
  match updateBook s id req.title req.author req.isbn req.price req.stock now with
  | .error _ => ({ status := 500, body := errBody "Failed to update book" }, c, s)
  | .ok (s', affected) =>
    if affected == 0 then
      ({ status := 404, body := errBody "Book not found" }, c, s)
    else
      ({ status := 200, body := putRespBody id req }, invalidateCache up c, s')

/-- Handler of DELETE /api/books/:id: affectedRows = 0 becomes 404;
otherwise invalidate the cache and confirm with 200. -/
def deleteBookH (up : Bool) (c : Cache) (s : Store) (id : Nat) :
    Response × Cache × Store :=
  let r := deleteRow s id
  if r.2 == 0 then
    ({ status := 404, body := errBody "Book not found" }, c, s)
  else
    ({ status := 200, body := .jobj [("message", .jstr "Book deleted successfully")] },
      invalidateCache up c, r.1)

/-- Outcome of startServer: either the process exits, or app.listen is
called; dbVerified records whether any initDatabase attempt actually got a
connection from the pool. -/
inductive StartOutcome where
  | exited : StartOutcome
  | listening : Bool → StartOutcome
deriving DecidableEq, Repr

/-- One initDatabase call: mysql.createPool assigns the global pool first
(it only throws on malformed configuration, modelled by createOk; it never
contacts the server), then pool.getConnection tests connectivity
(connectOk for this attempt). Returns the new pool flag and whether the
attempt reported success. -/
def initDatabase (createOk connectOk : Bool) (pool : Bool) : Bool × Bool :=
  if createOk then (true, connectOk) else (pool, false)

/-- The retry loop of startServer: up to five attempts, stopping early on
the first successful connection test. Returns the final pool flag and
whether any attempt succeeded. -/
def startLoop (createOk : Bool) : List Bool → Bool → Bool × Bool
  | [], pool => (pool, false)
  | ok :: rest, pool =>
    let r := initDatabase createOk ok pool
    if r.2 then (r.1, true) else startLoop createOk rest r.1

/-- startServer from server.js: run the retry loop (five attempts), then
exit only when the pool global is still unset — the connection-test result
itself is not consulted — and otherwise call app.listen. -/
def startServer (createOk : Bool) (connects : List Bool) : StartOutcome :=
  let r := startLoop createOk (connects.take 5) false
  if r.1 = false then .exited else .listening r.2

/-! Concrete fixtures used by counterexamples and witnesses. -/

/-- A sample stored book. -/
def bookA : Book :=
  { id := 1, title := "The Pragmatic Programmer", author := "David Thomas",
    isbn := "978-0135957059", price := some 49, stock := some 25,
    created_at := 10, updated_at := 10 }

/-- A second sample stored book with a distinct ISBN. -/
def bookB : Book :=
  { id := 2, title := "Clean Code", author := "Robert C. Martin",
    isbn := "978-0132350884", price := some 39, stock := some 30,
    created_at := 20, updated_at := 20 }

/-- A store holding bookA and bookB. -/
def store2 : Store :=
  { rows := [bookA, bookB], nextId := 3 }

/-- The empty store. -/
def store0 : Store :=
  { rows := [], nextId := 1 }

/-- A book used for the created_at tie counterexample (id 1, time 10). -/
def tieBook1 : Book :=
  { id := 1, title := "A", author := "B", isbn := "111", price := some 0,
    stock := some 0, created_at := 10, updated_at := 10 }

/-- A second book inserted later with the same created_at (id 2, time 10). -/
def tieBook2 : Book :=
  { id := 2, title := "C", author := "D", isbn := "222", price := some 0,
    stock := some 0, created_at := 10, updated_at := 10 }

/-- A store with two rows tied on created_at, in id-ascending table order. -/
def tieStore : Store :=
  { rows := [tieBook1, tieBook2], nextId := 3 }

/-- The ordering claimed by the spec sentence: creation time descending,
ties broken by identifier descending. Written from the spec text for
comparison with the query's actual ordering. -/
def specBeforeB (a b : Book) : Bool :=
  decide (b.created_at < a.created_at)
    || (a.created_at == b.created_at && decide (b.id < a.id))

/-- Whether adjacent elements of a list all satisfy the spec ordering. -/
def specSortedB : List Book → Bool
  | [] => true
  | [_] => true
  | a :: b :: rest => specBeforeB a b && specSortedB (b :: rest)

/-- A complete create request: all five fields present and truthy. -/
def reqFull : BookReq :=
  { title := some "T", author := some "A", isbn := some "555", price := some 5,
    stock := some 7 }

/-- A create request whose ISBN already exists in store2. -/
def reqDupIsbn : BookReq :=
  { title := some "X", author := some "Y", isbn := some "978-0135957059",
    price := none, stock := none }

/-- A request missing the required title field. -/
def reqNoTitle : BookReq :=
  { title := none, author := some "A", isbn := some "111", price := some 1,
    stock := some 1 }

/-- A valid request omitting price and stock. -/
def reqNoPrice : BookReq :=
  { title := some "T", author := some "A", isbn := some "556", price := none,
    stock := none }

/-- An update request that moves book 1 onto the ISBN of book 2 of store2. -/
def reqDupPut : BookReq :=
  { title := some "T1", author := some "A1", isbn := some "978-0132350884",
    price := some 1, stock := some 1 }

/-- A stale cache holding an empty collection snapshot. -/
def cStale : Cache :=
  [("books:all", JVal.jarr [])]

/-! ## C1 -/

/-- C1: the claim says the cache-hit response of GET /books has the same
array-of-records shape as the miss response, plus the from-cache tag. The
code spreads the cached ARRAY into an object literal, so the hit response
is a plain object keyed by numeric strings — not an array — while the miss
response is an array. The frontend of this repository (app.js loadBooks)
calls .map and .length on the GET /books body, which fails on the hit
shape, so the spread is a slip, not intent. -/
theorem c1_cache_hit_loses_array_shape :
    (getAllBooks true [("books:all", .jarr [bookToJson bookA])] store2).1.body
      = .jobj [("0", bookToJson bookA), ("fromCache", .jbool true)] ∧
    ((getAllBooks true [("books:all", .jarr [bookToJson bookA])] store2).1.body).isArr
      = false ∧
    ((getAllBooks true [] store2).1.body).isArr = true :=
  ⟨rfl, rfl, rfl⟩

/-! ## C2 -/

/-- C2: the claim says the service never starts listening unless the store
connection was verified, and exits when every attempt fails. In the code,
initDatabase assigns the pool global from mysql.createPool BEFORE the
connection test, and startServer exits only when the pool global is unset;
so when pool creation succeeds but all five connection tests fail, the
server listens anyway, with the store never verified — contradicting both
the claim and the code's own exit path and its log message. -/
theorem c2_listens_after_all_connection_attempts_fail :
    startServer true [false, false, false, false, false] = .listening false :=
  rfl

/-! ## C3 -/

/-- C3 counterexample: the query orders by created_at DESC only. On two
rows tied on created_at and inserted in id order 1, 2, the scan returns
them in table order — id ASCENDING on the tie — so the output violates the
claimed tie-break by identifier descending. -/
theorem c3_counterexample :
    selectAll tieStore = [tieBook1, tieBook2] ∧
    specSortedB (selectAll tieStore) = false :=
  ⟨rfl, rfl⟩

/-- insertDesc produces a permutation of consing the element. -/
theorem insertDesc_perm (b : Book) (l : List Book) :
    (insertDesc b l).Perm (b :: l) := by
  induction l with
  | nil => exact List.Perm.refl _
  | cons x xs ih =>
    by_cases h : b.created_at < x.created_at
    · simp only [insertDesc, if_pos h]
      exact (ih.cons x).trans (List.Perm.swap b x xs)
    · simp only [insertDesc, if_neg h]
      exact List.Perm.refl _

/-- insertDesc preserves sortedness by created_at descending. -/
theorem insertDesc_pairwise (b : Book) (l : List Book)
    (h : l.Pairwise (fun a b' => b'.created_at ≤ a.created_at)) :
    (insertDesc b l).Pairwise (fun a b' => b'.created_at ≤ a.created_at) := by
  induction l with
  | nil => simp [insertDesc]
  | cons x xs ih =>
    rcases List.pairwise_cons.mp h with ⟨hx, hxs⟩
    by_cases hlt : b.created_at < x.created_at
    · simp only [insertDesc, if_pos hlt]
      refine List.pairwise_cons.mpr ⟨?_, ih hxs⟩
      intro y hy
      rcases List.mem_cons.mp ((insertDesc_perm b xs).mem_iff.mp hy) with hyb | hy'
      · subst hyb; exact Nat.le_of_lt hlt
      · exact hx y hy'
    · simp only [insertDesc, if_neg hlt]
      refine List.pairwise_cons.mpr ⟨?_, h⟩
      intro y hy
      rcases List.mem_cons.mp hy with hyx | hy'
      · subst hyx; exact Nat.not_lt.mp hlt
      · exact le_trans (hx y hy') (Nat.not_lt.mp hlt)

/-- The insertion sort is sorted by created_at descending. -/
theorem foldr_insertDesc_pairwise (l : List Book) :
    (l.foldr insertDesc []).Pairwise (fun a b' => b'.created_at ≤ a.created_at) := by
  induction l with
  | nil => simp
  | cons x xs ih => exact insertDesc_pairwise x _ ih

/-- The insertion sort permutes its input. -/
theorem foldr_insertDesc_perm (l : List Book) :
    (l.foldr insertDesc []).Perm l := by
  induction l with
  | nil => exact List.Perm.refl _
  | cons x xs ih => exact (insertDesc_perm x _).trans (ih.cons x)

/-- C3 (amended): the collection scan returns exactly the table rows
ordered by creation time descending; the query specifies NO tie-break, and
rows tied on created_at appear in table order (identifier ascending when
rows were inserted in id order), not identifier descending. -/
theorem c3_scan_sorted_created_desc (s : Store) :
    (selectAll s).Pairwise (fun a b' => b'.created_at ≤ a.created_at) ∧
    (selectAll s).Perm s.rows :=
  ⟨foldr_insertDesc_pairwise s.rows, foldr_insertDesc_perm s.rows⟩

/-! ## Helper lemmas on the handlers -/

/-- When a row with the target id exists and a required body field is
absent, the UPDATE statement raises the NULL error. -/
theorem updateBook_badNull (s : Store) (id : Nat) (title author isbn : Option String)
    (price stock : Option Int) (now : Nat) (old : Book)
    (hfind : s.rows.find? (fun b => b.id == id) = some old)
    (hmiss : title = none ∨ author = none ∨ isbn = none) :
    updateBook s id title author isbn price stock now = .error .badNull := by
  unfold updateBook
  rw [hfind]
  rcases hmiss with h | h | h
  · subst h; rfl
  · subst h
    cases title with
    | none => rfl
    | some t => rfl
  · subst h
    cases title with
    | none => rfl
    | some t =>
      cases author with
      | none => rfl
      | some a => rfl

/-- When no row has the target id, the UPDATE matches nothing: no
constraint is checked and affectedRows is 0. -/
theorem updateBook_absent (s : Store) (id : Nat) (title author isbn : Option String)
    (price stock : Option Int) (now : Nat)
    (hfind : s.rows.find? (fun b => b.id == id) = none) :
    updateBook s id title author isbn price stock now = .ok (s, 0) := by
  unfold updateBook
  rw [hfind]

/-- POST either answers 201 having invalidated the cache and extended the
store, or fails (400 or 409) leaving cache and store untouched. -/
theorem postBook_cases (up : Bool) (c : Cache) (s : Store) (req : BookReq) (now : Nat) :
    ((postBook up c s req now).1.status = 201 ∧
      (postBook up c s req now).2.1 = invalidateCache up c) ∨
    ((postBook up c s req now).1.status ≠ 201 ∧
      (postBook up c s req now).2.1 = c ∧ (postBook up c s req now).2.2 = s) := by
  unfold postBook
  cases hv : (truthyS req.title && truthyS req.author && truthyS req.isbn) with
  | false => right; simp
  | true =>
    cases hins : insertBook s (req.title.getD "") (req.author.getD "") (req.isbn.getD "")
        (req.price.getD 0) (req.stock.getD 0) now with
    | error e => right; simp
    | ok p => left; simp

/-- PUT either answers 200 having invalidated the cache, or fails (404 or
500) leaving cache and store untouched. -/
theorem putBook_cases (up : Bool) (c : Cache) (s : Store) (id : Nat) (req : BookReq)
    (now : Nat) :
    ((putBook up c s id req now).1.status = 200 ∧
      (putBook up c s id req now).2.1 = invalidateCache up c) ∨
    ((putBook up c s id req now).1.status ≠ 200 ∧
      (putBook up c s id req now).2.1 = c ∧ (putBook up c s id req now).2.2 = s) := by
  unfold putBook
  cases hu : updateBook s id req.title req.author req.isbn req.price req.stock now with
  | error e => right; simp
  | ok p =>
    obtain ⟨s', aff⟩ := p
    cases haff : (aff == 0) with
    | true => right; simp [haff]
    | false => left; simp [haff]

/-- DELETE either answers 200 having invalidated the cache, or fails with
404 leaving cache and store untouched. -/
theorem deleteBookH_cases (up : Bool) (c : Cache) (s : Store) (id : Nat) :
    ((deleteBookH up c s id).1.status = 200 ∧
      (deleteBookH up c s id).2.1 = invalidateCache up c) ∨
    ((deleteBookH up c s id).1.status ≠ 200 ∧
      (deleteBookH up c s id).2.1 = c ∧ (deleteBookH up c s id).2.2 = s) := by
  unfold deleteBookH deleteRow
  cases hany : s.rows.any (fun b => b.id == id) with
  | false => right; simp [hany]
  | true => left; simp [hany]

/-! ## C4 -/

/-- C4 counterexample: a fully valid create answers 201, but the response
body is built only from the insertId, the raw request fields and the
message — it contains no created timestamp, while the row stored by the
same request does carry created_at. The claim that the response contains
the created timestamp is false. -/
theorem c4_counterexample :
    (postBook true [] store0 reqFull 42).1.status = 201 ∧
    (postBook true [] store0 reqFull 42).1.body
      = .jobj [("id", jnat 1), ("title", .jstr "T"), ("author", .jstr "A"),
               ("isbn", .jstr "555"), ("price", .jnum 5), ("stock", .jnum 7),
               ("message", .jstr "Book created successfully")] ∧
    ((postBook true [] store0 reqFull 42).1.body).hasKey "created_at" = false ∧
    (postBook true [] store0 reqFull 42).2.2.rows
      = [{ id := 1, title := "T", author := "A", isbn := "555", price := some 5,
           stock := some 7, created_at := 42, updated_at := 42 }] :=
  ⟨rfl, rfl, rfl, rfl⟩

/-- C4 (amended): with title, author and ISBN present and truthy and a
fresh ISBN, create answers 201 with the newly assigned identifier in the
body (but no created timestamp, which only the stored row carries) and
stores omitted price and stock as zero; an existing ISBN answers 409 and a
missing required field answers 400, both leaving the store unchanged. -/
theorem c4_create_contract (up : Bool) (c : Cache) (s : Store) (req : BookReq) (now : Nat) :
    ((truthyS req.title && truthyS req.author && truthyS req.isbn) = true →
      isbnTaken s (req.isbn.getD "") = false →
      (postBook up c s req now).1.status = 201 ∧
      ((postBook up c s req now).1.body).objField "id" = some (jnat s.nextId) ∧
      (postBook up c s req now).2.2.rows
        = s.rows ++ [{ id := s.nextId, title := req.title.getD "",
                       author := req.author.getD "", isbn := req.isbn.getD "",
                       price := some (req.price.getD 0),
                       stock := some (req.stock.getD 0),
                       created_at := now, updated_at := now }]) ∧
    ((truthyS req.title && truthyS req.author && truthyS req.isbn) = true →
      isbnTaken s (req.isbn.getD "") = true →
      (postBook up c s req now).1.status = 409 ∧
      (postBook up c s req now).2.2 = s) ∧
    ((truthyS req.title && truthyS req.author && truthyS req.isbn) = false →
      (postBook up c s req now).1.status = 400 ∧
      (postBook up c s req now).2.2 = s) := by
  refine ⟨?_, ?_, ?_⟩
  · intro hv hf
    simp [postBook, insertBook, hv, hf, createRespBody, JVal.objField]
  · intro hv ht
    simp [postBook, insertBook, hv, ht]
  · intro hv
    simp [postBook, hv]

/-- C4 witness: the three branches of the create contract at concrete
inputs. -/
theorem c4_create_contract_witness :
    (postBook true [] store0 reqFull 42).1.status = 201 ∧
    (postBook true [] store2 reqDupIsbn 42).1.status = 409 ∧
    (postBook true [] store0 reqNoTitle 42).1.status = 400 :=
  ⟨((c4_create_contract true [] store0 reqFull 42).1 rfl rfl).1,
   ((c4_create_contract true [] store2 reqDupIsbn 42).2.1 rfl rfl).1,
   ((c4_create_contract true [] store0 reqNoTitle 42).2.2 rfl).1⟩

/-! ## C5 -/

/-- C5 counterexample: a PUT on the existing book 1 with the required
title field absent does not answer 400: the handler performs no
validation, the driver binds NULL for the missing field, the NOT NULL
column rejects it and the generic catch answers 500. -/
theorem c5_counterexample :
    (putBook true [] store2 1 reqNoTitle 77).1.status = 500 ∧
    (putBook true [] store2 1 reqNoTitle 77).1.status ≠ 400 :=
  ⟨rfl, by decide⟩

/-- C5 (amended): only POST validates required fields and answers 400 on a
missing one; PUT performs no validation and never answers 400 — a missing
required field surfaces as 500 when the row exists (NULL bind into a NOT
NULL column) and as 404 when it does not. -/
theorem c5_validation_only_on_create (up : Bool) (c : Cache) (s : Store) (id : Nat)
    (req : BookReq) (now : Nat) :
    ((truthyS req.title && truthyS req.author && truthyS req.isbn) = false →
      (postBook up c s req now).1.status = 400) ∧
    (req.title = none ∨ req.author = none ∨ req.isbn = none →
      (putBook up c s id req now).1.status ≠ 400 ∧
      (∀ old, s.rows.find? (fun b => b.id == id) = some old →
        (putBook up c s id req now).1.status = 500) ∧
      (s.rows.find? (fun b => b.id == id) = none →
        (putBook up c s id req now).1.status = 404)) := by
  constructor
  · intro hv
    simp [postBook, hv]
  · intro hmiss
    have h500 : ∀ old, s.rows.find? (fun b => b.id == id) = some old →
        (putBook up c s id req now).1.status = 500 := by
      intro old hfind
      unfold putBook
      rw [updateBook_badNull s id req.title req.author req.isbn req.price req.stock now
        old hfind hmiss]
    have h404 : s.rows.find? (fun b => b.id == id) = none →
        (putBook up c s id req now).1.status = 404 := by
      intro hfind
      unfold putBook
      rw [updateBook_absent s id req.title req.author req.isbn req.price req.stock now hfind]
      rfl
    refine ⟨?_, h500, h404⟩
    cases hfind : s.rows.find? (fun b => b.id == id) with
    | none => rw [h404 hfind]; decide
    | some old => rw [h500 old hfind]; decide

/-- C5 witness: the amended contract at concrete inputs — POST missing a
field answers 400; PUT missing a field answers 500 on the existing book 1
and 404 on the absent id 9. -/
theorem c5_validation_only_on_create_witness :
    (postBook true [] store0 reqNoTitle 42).1.status = 400 ∧
    (putBook true [] store2 1 reqNoTitle 77).1.status ≠ 400 ∧
    (putBook true [] store2 1 reqNoTitle 77).1.status = 500 ∧
    (putBook true [] store2 9 reqNoTitle 77).1.status = 404 :=
  ⟨(c5_validation_only_on_create true [] store0 1 reqNoTitle 42).1 rfl,
   ((c5_validation_only_on_create true [] store2 1 reqNoTitle 77).2 (Or.inl rfl)).1,
   ((c5_validation_only_on_create true [] store2 1 reqNoTitle 77).2 (Or.inl rfl)).2.1
     bookA rfl,
   ((c5_validation_only_on_create true [] store2 9 reqNoTitle 77).2 (Or.inl rfl)).2.2 rfl⟩

/-! ## C6 -/

/-- C6 counterexample: an UPDATE of the existing book 1 that moves its
ISBN onto the ISBN of book 2 fails with the duplicate-key error; the PUT
handler has no duplicate-key branch, so the failure surfaces as 500, not
the 409 the claim states for a duplicate ISBN. The cache and the store are
left untouched. -/
theorem c6_counterexample :
    (putBook true cStale store2 1 reqDupPut 99).1.status = 500 ∧
    (putBook true cStale store2 1 reqDupPut 99).1.status ≠ 409 ∧
    (putBook true cStale store2 1 reqDupPut 99).2.1 = cStale ∧
    (putBook true cStale store2 1 reqDupPut 99).2.2 = store2 :=
  ⟨rfl, by decide, rfl, rfl⟩

/-- C6 (amended): for create, update and delete alike, cache invalidation
(the pattern sweep plus the defensive second delete of the collection key)
is performed exactly when the store mutation succeeds; when it fails, the
cache and the store are untouched and the failure propagates as the code
classifies it — 409 for a duplicate ISBN on create only (on update a
duplicate ISBN surfaces as 500), 404 for a missing row, 500 otherwise. -/
theorem c6_invalidate_iff_success (up : Bool) (c : Cache) (s : Store) (req : BookReq)
    (id : Nat) (now : Nat) :
    (((postBook up c s req now).1.status = 201 →
        (postBook up c s req now).2.1 = invalidateCache up c) ∧
      ((postBook up c s req now).1.status ≠ 201 →
        (postBook up c s req now).2.1 = c ∧ (postBook up c s req now).2.2 = s)) ∧
    (((putBook up c s id req now).1.status = 200 →
        (putBook up c s id req now).2.1 = invalidateCache up c) ∧
      ((putBook up c s id req now).1.status ≠ 200 →
        (putBook up c s id req now).2.1 = c ∧ (putBook up c s id req now).2.2 = s)) ∧
    (((deleteBookH up c s id).1.status = 200 →
        (deleteBookH up c s id).2.1 = invalidateCache up c) ∧
      ((deleteBookH up c s id).1.status ≠ 200 →
        (deleteBookH up c s id).2.1 = c ∧ (deleteBookH up c s id).2.2 = s)) := by
  refine ⟨⟨?_, ?_⟩, ⟨?_, ?_⟩, ⟨?_, ?_⟩⟩
  · intro h
    rcases postBook_cases up c s req now with ⟨_, h2⟩ | ⟨h1, _, _⟩
    · exact h2
    · exact absurd h h1
  · intro h
    rcases postBook_cases up c s req now with ⟨h1, _⟩ | ⟨_, h2, h3⟩
    · exact absurd h1 h
    · exact ⟨h2, h3⟩
  · intro h
    rcases putBook_cases up c s id req now with ⟨_, h2⟩ | ⟨h1, _, _⟩
    · exact h2
    · exact absurd h h1
  · intro h
    rcases putBook_cases up c s id req now with ⟨h1, _⟩ | ⟨_, h2, h3⟩
    · exact absurd h1 h
    · exact ⟨h2, h3⟩
  · intro h
    rcases deleteBookH_cases up c s id with ⟨_, h2⟩ | ⟨h1, _, _⟩
    · exact h2
    · exact absurd h h1
  · intro h
    rcases deleteBookH_cases up c s id with ⟨h1, _⟩ | ⟨_, h2, h3⟩
    · exact absurd h1 h
    · exact ⟨h2, h3⟩

/-- C6 witness: both directions at concrete inputs — a successful create
and delete invalidate; a duplicate-ISBN create, a duplicate-ISBN update
and a delete of an absent row leave the cache and store untouched. -/
theorem c6_invalidate_iff_success_witness :
    (postBook true cStale store0 reqFull 42).2.1 = invalidateCache true cStale ∧
    (postBook true cStale store2 reqDupIsbn 42).2.1 = cStale ∧
    (postBook true cStale store2 reqDupIsbn 42).2.2 = store2 ∧
    (putBook true cStale store2 1 reqDupPut 99).2.1 = cStale ∧
    (deleteBookH true cStale store2 1).2.1 = invalidateCache true cStale ∧
    (deleteBookH true cStale store2 9).2.1 = cStale :=
  ⟨((c6_invalidate_iff_success true cStale store0 reqFull 1 42).1).1 rfl,
   (((c6_invalidate_iff_success true cStale store2 reqDupIsbn 1 42).1).2 (by decide)).1,
   (((c6_invalidate_iff_success true cStale store2 reqDupIsbn 1 42).1).2 (by decide)).2,
   ((((c6_invalidate_iff_success true cStale store2 reqDupPut 1 99).2).1).2 (by decide)).1,
   (((c6_invalidate_iff_success true cStale store2 reqDupPut 1 99).2).2).1 rfl,
   (((c6_invalidate_iff_success true cStale store2 reqDupPut 9 99).2).2).2 (by decide)
     |>.1⟩

/-! ## C7 -/

/-- C7: every cache helper is non-fatal, so with the cache entirely
unreachable (every call a swallowed error or a closed client, up = false)
each handler behaves exactly as the store-only computation: reads answer
from the store scan or point lookup, the cache is never consulted or
modified, and the response and store effect of every mutation are
independent of the cache contents and of cache availability — no cache
error ever surfaces in a client response. -/
theorem c7_cache_down_degraded (c c' : Cache) (s : Store) (id : Nat) (req : BookReq)
    (now : Nat) (up : Bool) :
    (getAllBooks false c s).1
      = { status := 200, body := .jarr ((selectAll s).map bookToJson) } ∧
    (getAllBooks false c s).2 = c ∧
    (getOneBook false c s id).1
      = (match selectById s id with
         | none => { status := 404, body := errBody "Book not found" }
         | some b => { status := 200, body := bookToJson b }) ∧
    (getOneBook false c s id).2 = c ∧
    (postBook false c s req now).1 = (postBook up c' s req now).1 ∧
    (postBook false c s req now).2.1 = c ∧
    (postBook false c s req now).2.2 = (postBook up c' s req now).2.2 ∧
    (putBook false c s id req now).1 = (putBook up c' s id req now).1 ∧
    (putBook false c s id req now).2.1 = c ∧
    (putBook false c s id req now).2.2 = (putBook up c' s id req now).2.2 ∧
    (deleteBookH false c s id).1 = (deleteBookH up c' s id).1 ∧
    (deleteBookH false c s id).2.1 = c ∧
    (deleteBookH false c s id).2.2 = (deleteBookH up c' s id).2.2 := by
  refine ⟨rfl, rfl, ?_, ?_, ?_, ?_, ?_, ?_, ?_, ?_, ?_, ?_, ?_⟩
  · cases h : selectById s id <;> simp [getOneBook, getFromCache, setToCache, h]
  · cases h : selectById s id <;> simp [getOneBook, getFromCache, setToCache, h]
  · unfold postBook
    cases hv : (truthyS req.title && truthyS req.author && truthyS req.isbn) with
    | false => rfl
    | true =>
      cases hins : insertBook s (req.title.getD "") (req.author.getD "") (req.isbn.getD "")
          (req.price.getD 0) (req.stock.getD 0) now with
      | error e => rfl
      | ok p => rfl
  · unfold postBook
    cases hv : (truthyS req.title && truthyS req.author && truthyS req.isbn) with
    | false => rfl
    | true =>
      cases hins : insertBook s (req.title.getD "") (req.author.getD "") (req.isbn.getD "")
          (req.price.getD 0) (req.stock.getD 0) now with
      | error e => rfl
      | ok p => rfl
  · unfold postBook
    cases hv : (truthyS req.title && truthyS req.author && truthyS req.isbn) with
    | false => rfl
    | true =>
      cases hins : insertBook s (req.title.getD "") (req.author.getD "") (req.isbn.getD "")
          (req.price.getD 0) (req.stock.getD 0) now with
      | error e => rfl
      | ok p => rfl
  · unfold putBook
    cases hu : updateBook s id req.title req.author req.isbn req.price req.stock now with
    | error e => rfl
    | ok p =>
      obtain ⟨s', aff⟩ := p
      cases haff : (aff == 0) <;> simp [haff, invalidateCache]
  · unfold putBook
    cases hu : updateBook s id req.title req.author req.isbn req.price req.stock now with
    | error e => rfl
    | ok p =>
      obtain ⟨s', aff⟩ := p
      cases haff : (aff == 0) <;> simp [haff, invalidateCache]
  · unfold putBook
    cases hu : updateBook s id req.title req.author req.isbn req.price req.stock now with
    | error e => rfl
    | ok p =>
      obtain ⟨s', aff⟩ := p
      cases haff : (aff == 0) <;> simp [haff, invalidateCache]
  · unfold deleteBookH deleteRow
    cases hany : s.rows.any (fun b => b.id == id) <;> simp [hany, invalidateCache]
  · unfold deleteBookH deleteRow
    cases hany : s.rows.any (fun b => b.id == id) <;> simp [hany, invalidateCache]
  · unfold deleteBookH deleteRow
    cases hany : s.rows.any (fun b => b.id == id) <;> simp [hany, invalidateCache]

/-! ## C8 -/

/-- C8: on a cache miss of the item key, GET /books/\x7bid\x7d answers 404
for an absent id WITHOUT writing anything to the cache (absence is never
cached), and for a present id populates the item key with the record and
returns it. -/
theorem c8_read_item_contract (up : Bool) (c : Cache) (s : Store) (id : Nat)
    (hmiss : getFromCache up c (itemKey id) = none) :
    (selectById s id = none →
      getOneBook up c s id = ({ status := 404, body := errBody "Book not found" }, c)) ∧
    (∀ b, selectById s id = some b →
      getOneBook up c s id
        = ({ status := 200, body := bookToJson b },
           setToCache up c (itemKey id) (bookToJson b))) := by
  constructor
  · intro h
    unfold getOneBook
    rw [hmiss, h]
  · intro b h
    unfold getOneBook
    rw [hmiss, h]

/-- C8 witness: on the empty cache, the absent id 9 answers 404 leaving
the cache empty, and the present id 1 answers with book 1 and populates
its item key. -/
theorem c8_read_item_contract_witness :
    getOneBook true [] store2 9 = ({ status := 404, body := errBody "Book not found" }, []) ∧
    getOneBook true [] store2 1
      = ({ status := 200, body := bookToJson bookA },
         setToCache true [] (itemKey 1) (bookToJson bookA)) :=
  ⟨(c8_read_item_contract true [] store2 9 rfl).1 rfl,
   (c8_read_item_contract true [] store2 1 rfl).2 bookA rfl⟩

/-! ## C9 -/

/-- Searching a filtered association list for the removed key finds
nothing. -/
theorem find?_filter_ne (c : Cache) (k : String) :
    (c.filter (fun kv => kv.1 != k)).find? (fun kv => kv.1 == k) = none := by
  induction c with
  | nil => rfl
  | cons kv rest ih =>
    by_cases h : kv.1 = k
    · simp only [List.filter_cons, bne, h, beq_self_eq_true, Bool.not_true]
      exact ih
    · have hne : (kv.1 != k) = true := by simp [bne, h]
      have hne' : (kv.1 == k) = false := by simp [h]
      simp only [List.filter_cons, hne, if_true, List.find?_cons, hne']
      exact ih

/-- After a successful invalidation, the collection key is gone: any later
lookup of books:all is a miss, whether or not the cache is then up. -/
theorem getFromCache_invalidate_all (u : Bool) (c : Cache) :
    getFromCache u (invalidateCache true c) "books:all" = none := by
  cases u with
  | false => rfl
  | true =>
    show cacheGet (invalidateCache true c) "books:all" = none
    unfold invalidateCache cacheGet cacheDel
    rw [if_pos rfl, find?_filter_ne]
    rfl

/-- C9: a successful create, update or delete invalidates the collection
key before acknowledging (the cache being reachable during the mutation),
so the very next GET /books cannot be a cache hit: it answers 200 with the
post-mutation store scan, whatever the cache availability of that read. -/
theorem c9_read_after_write_fresh (c : Cache) (s : Store) (req : BookReq) (id : Nat)
    (now : Nat) (u : Bool) :
    (∀ resp c' s', postBook true c s req now = (resp, c', s') → resp.status = 201 →
      (getAllBooks u c' s').1
        = { status := 200, body := .jarr ((selectAll s').map bookToJson) }) ∧
    (∀ resp c' s', putBook true c s id req now = (resp, c', s') → resp.status = 200 →
      (getAllBooks u c' s').1
        = { status := 200, body := .jarr ((selectAll s').map bookToJson) }) ∧
    (∀ resp c' s', deleteBookH true c s id = (resp, c', s') → resp.status = 200 →
      (getAllBooks u c' s').1
        = { status := 200, body := .jarr ((selectAll s').map bookToJson) }) := by
  refine ⟨?_, ?_, ?_⟩
  · intro resp c' s' heq hst
    have hc' : c' = invalidateCache true c := by
      rcases postBook_cases true c s req now with ⟨_, h2⟩ | ⟨h1, _, _⟩
      · rw [heq] at h2; exact h2
      · rw [heq] at h1; exact absurd hst h1
    subst hc'
    unfold getAllBooks
    rw [getFromCache_invalidate_all]
  · intro resp c' s' heq hst
    have hc' : c' = invalidateCache true c := by
      rcases putBook_cases true c s id req now with ⟨_, h2⟩ | ⟨h1, _, _⟩
      · rw [heq] at h2; exact h2
      · rw [heq] at h1; exact absurd hst h1
    subst hc'
    unfold getAllBooks
    rw [getFromCache_invalidate_all]
  · intro resp c' s' heq hst
    have hc' : c' = invalidateCache true c := by
      rcases deleteBookH_cases true c s id with ⟨_, h2⟩ | ⟨h1, _, _⟩
      · rw [heq] at h2; exact h2
      · rw [heq] at h1; exact absurd hst h1
    subst hc'
    unfold getAllBooks
    rw [getFromCache_invalidate_all]

/-- C9 witness: starting from a stale cached empty collection, a concrete
successful create, update and delete each make the next GET /books return
the fresh post-mutation scan. -/
theorem c9_read_after_write_fresh_witness :
    (getAllBooks true (postBook true cStale store0 reqFull 42).2.1
        (postBook true cStale store0 reqFull 42).2.2).1
      = { status := 200,
          body := .jarr ((selectAll (postBook true cStale store0 reqFull 42).2.2).map
            bookToJson) } ∧
    (getAllBooks true (putBook true cStale store2 1 reqFull 99).2.1
        (putBook true cStale store2 1 reqFull 99).2.2).1
      = { status := 200,
          body := .jarr ((selectAll (putBook true cStale store2 1 reqFull 99).2.2).map
            bookToJson) } ∧
    (getAllBooks true (deleteBookH true cStale store2 1).2.1
        (deleteBookH true cStale store2 1).2.2).1
      = { status := 200,
          body := .jarr ((selectAll (deleteBookH true cStale store2 1).2.2).map
            bookToJson) } :=
  ⟨(c9_read_after_write_fresh cStale store0 reqFull 1 42 true).1
      (postBook true cStale store0 reqFull 42).1
      (postBook true cStale store0 reqFull 42).2.1
      (postBook true cStale store0 reqFull 42).2.2 rfl rfl,
   (c9_read_after_write_fresh cStale store2 reqFull 1 99 true).2.1
      (putBook true cStale store2 1 reqFull 99).1
      (putBook true cStale store2 1 reqFull 99).2.1
      (putBook true cStale store2 1 reqFull 99).2.2 rfl rfl,
   (c9_read_after_write_fresh cStale store2 reqFull 1 99 true).2.2
      (deleteBookH true cStale store2 1).1
      (deleteBookH true cStale store2 1).2.1
      (deleteBookH true cStale store2 1).2.2 rfl rfl⟩

/-! ## C10 -/

/-- C10: when price and stock are omitted from a valid create, the 201
body echoes the raw request — JSON.stringify drops the undefined fields,
so price and stock are ABSENT from the response — while the stored row has
both defaulted to zero: the created response and the stored record
disagree on price and stock. -/
theorem c10_created_response_omits_defaulted_fields (up : Bool) (c : Cache) (s : Store)
    (req : BookReq) (now : Nat)
    (hv : (truthyS req.title && truthyS req.author && truthyS req.isbn) = true)
    (hf : isbnTaken s (req.isbn.getD "") = false)
    (hp : req.price = none) (hst : req.stock = none) :
    (postBook up c s req now).1.status = 201 ∧
    ((postBook up c s req now).1.body).hasKey "price" = false ∧
    ((postBook up c s req now).1.body).hasKey "stock" = false ∧
    (postBook up c s req now).2.2.rows
      = s.rows ++ [{ id := s.nextId, title := req.title.getD "",
                     author := req.author.getD "", isbn := req.isbn.getD "",
                     price := some 0, stock := some 0,
                     created_at := now, updated_at := now }] := by
  obtain ⟨title?, author?, isbn?, price?, stock?⟩ := req
  simp only at hp hst hv hf
  subst hp hst
  cases title? with
  | none => simp [truthyS] at hv
  | some t =>
    cases author? with
    | none => simp [truthyS] at hv
    | some a =>
      cases isbn? with
      | none => simp [truthyS] at hv
      | some i =>
        simp only [Option.getD_some] at hf
        simp [postBook, insertBook, hv, hf, createRespBody, JVal.hasKey, JVal.objField,
          optField]

/-- C10 witness: a concrete create omitting price and stock answers 201
without price or stock in the body, while the stored row carries zero for
both. -/
theorem c10_created_response_omits_defaulted_fields_witness :
    (postBook true [] store0 reqNoPrice 42).1.status = 201 ∧
    ((postBook true [] store0 reqNoPrice 42).1.body).hasKey "price" = false ∧
    ((postBook true [] store0 reqNoPrice 42).1.body).hasKey "stock" = false ∧
    (postBook true [] store0 reqNoPrice 42).2.2.rows
      = store0.rows ++ [{ id := store0.nextId, title := reqNoPrice.title.getD "",
                          author := reqNoPrice.author.getD "",
                          isbn := reqNoPrice.isbn.getD "",
                          price := some 0, stock := some 0,
                          created_at := 42, updated_at := 42 }] :=
  c10_created_response_omits_defaulted_fields true [] store0 reqNoPrice 42 rfl rfl rfl rfl

end Bookstore
